import Mathlib

/-!
Verification development for a stock-portfolio dashboard (`dashboard.py`).

The program maintains a table of holdings (Ticker, Shares, Buy Price,
Your Target Price), persists it to a spreadsheet (clear + append header +
append rows), and on "Refresh Prices" maps every row through a per-row
valuation computation using a per-ticker market-data fetch, then sums
portfolio totals.

Numbers are modelled as rationals; Python's `round(x, 2)` is modelled as
decimal round-half-to-even at two places.  Absent values (`None` / NaN)
are `Option` `none`.  The market-data provider is a parameter
`fetch : String → FetchResult`; an exception in the per-ticker fetch is
the `FetchResult.err` constructor.
-/

set_option maxRecDepth 4000

namespace Dashboard

/-- Round-half-to-even of a rational to an integer, the behaviour of
Python's `round` on exactly representable values. -/
def rhe (q : ℚ) : ℤ :=
  let f : ℤ := ⌊q⌋
  let d : ℚ := q - (f : ℚ)
  if d < 1/2 then f
  else if 1/2 < d then f + 1
  else if f % 2 = 0 then f else f + 1

/-- `round(x, 2)`: round to two decimal places. -/
def round2 (q : ℚ) : ℚ := ((rhe (q * 100) : ℤ) : ℚ) / 100

/-- One editable holdings row; `none` models a NaN / missing cell
(`dashboard.py` lines 76-79 read the four columns with `pd.notna` checks). -/
structure HoldingRow where
  ticker : Option String
  shares : Option ℚ
  buyPrice : Option ℚ
  targetPrice : Option ℚ
deriving DecidableEq, Repr

/-- The information bundle returned by the market-data provider
(`stock.info`): the keys read at lines 87 and 89. -/
structure Info where
  currentPrice : Option ℚ
  regularMarketPrice : Option ℚ
  targetMeanPrice : Option ℚ
deriving DecidableEq, Repr

/-- Outcome of one per-ticker fetch: a bundle, or a raised exception with
its message (caught at lines 91-92). -/
inductive FetchResult where
  | ok (info : Info)
  | err (msg : String)
deriving DecidableEq, Repr

/-- The derived values appended to a row by the refresh loop
(lines 94-105), plus the error message reported for that row, if any. -/
structure ValRow where
  currentPrice : Option ℚ
  currentValue : Option ℚ
  totalCost : Option ℚ
  profitAbs : Option ℚ
  profitPct : Option ℚ
  analystTarget : Option ℚ
  analystUpside : Option ℚ
  errMsg : Option String
deriving DecidableEq, Repr

/-- Python's `str.upper()`, character by character. -/
def pyUpper (s : String) : String :=
  ⟨s.data.map Char.toUpper⟩

/-- Python's `str.strip()`: drop whitespace from both ends. -/
def pyStrip (s : String) : String :=
  ⟨((s.data.dropWhile Char.isWhitespace).reverse.dropWhile Char.isWhitespace).reverse⟩

/-- `str(row["Ticker"]).strip().upper() if pd.notna(...) else ""` (line 76). -/
def normTicker : Option String → String
  | some s => pyUpper (pyStrip s)
  | none => ""

/-- Python `a or b` on optional numbers: `a` when truthy (present and
nonzero), else `b` (line 87). -/
def pyOr (a b : Option ℚ) : Option ℚ :=
  match a with
  | some q => if q = 0 then b else some q
  | none => b

/-- `round(x, 2) if x else None` (lines 88 and 90): round when truthy. -/
def roundIfTruthy (a : Option ℚ) : Option ℚ :=
  match a with
  | some q => if q = 0 then none else some (round2 q)
  | none => none

/-- Lines 81-92: price and analyst target for a normalized ticker, plus the
reported error message when the fetch raises.  An empty ticker is not
fetched at all. -/
def fetchPrices (fetch : String → FetchResult) (ticker : String) :
    Option ℚ × Option ℚ × Option String :=
  if ticker = "" then (none, none, none)
  else
    match fetch ticker with
    | FetchResult.ok info =>
        (roundIfTruthy (pyOr info.currentPrice info.regularMarketPrice),
         roundIfTruthy info.targetMeanPrice, none)
    | FetchResult.err e => (none, none, some ("Error fetching " ++ ticker ++ ": " ++ e))

/-- `round(price * shares, 2) if price and shares else None` (line 95). -/
def currentValueOf (price : Option ℚ) (shares : ℚ) : Option ℚ :=
  match price with
  | some p => if p ≠ 0 ∧ shares ≠ 0 then some (round2 (p * shares)) else none
  | none => none

/-- `round(buy_price * shares, 2) if buy_price and shares else None` (line 97). -/
def totalCostOf (buyPrice shares : ℚ) : Option ℚ :=
  if buyPrice ≠ 0 ∧ shares ≠ 0 then some (round2 (buyPrice * shares)) else none

/-- `round(value - cost, 2) if value is not None and cost is not None else None`
(line 99). -/
def profitAbsOf (value cost : Option ℚ) : Option ℚ :=
  match value, cost with
  | some v, some c => some (round2 (v - c))
  | _, _ => none

/-- `round((profit_dollar / cost) * 100, 2) if profit_dollar is not None and
cost and cost != 0 else None` (line 101). -/
def profitPctOf (profit cost : Option ℚ) : Option ℚ :=
  match profit, cost with
  | some p, some c => if c ≠ 0 then some (round2 (p / c * 100)) else none
  | _, _ => none

/-- `round(((analyst - price) / price) * 100, 2) if analyst and price and
price > 0 else None` (line 104). -/
def analystUpsideOf (analyst price : Option ℚ) : Option ℚ :=
  match analyst, price with
  | some a, some p =>
      if a ≠ 0 ∧ p ≠ 0 ∧ 0 < p then some (round2 ((a - p) / p * 100)) else none
  | _, _ => none

/-- One iteration of the refresh loop (lines 75-105): the derived values
for one holdings row under a given market-data provider. -/
def valuationRow (fetch : String → FetchResult) (row : HoldingRow) : ValRow :=
  let ticker := normTicker row.ticker
  let shares := row.shares.getD 0
  let buyPrice := row.buyPrice.getD 0
  let res := fetchPrices fetch ticker
  let price := res.1
  let analyst := res.2.1
  let value := currentValueOf price shares
  let cost := totalCostOf buyPrice shares
  let profit := profitAbsOf value cost
  { currentPrice := price
    currentValue := value
    totalCost := cost
    profitAbs := profit
    profitPct := profitPctOf profit cost
    analystTarget := analyst
    analystUpside := analystUpsideOf analyst price
    errMsg := res.2.2 }

/-- The whole refresh loop: every row is processed, in order (lines 75-105). -/
def refreshRows (fetch : String → FetchResult) (rows : List HoldingRow) : List ValRow :=
  rows.map (valuationRow fetch)

/-- Sum of the present values of a list of optional numbers. -/
def presentSum (l : List (Option ℚ)) : ℚ :=
  (l.filterMap id).sum

/-- `sum(v for v in l if v)` (lines 115-116): sum of the truthy values. -/
def truthySum (l : List (Option ℚ)) : ℚ :=
  (l.filterMap (fun o =>
    match o with
    | some q => if q = 0 then none else some q
    | none => none)).sum

/-- `total_value = sum(v for v in current_values if v)` (line 115). -/
def total_value (vals : List ValRow) : ℚ := truthySum (vals.map (·.currentValue))

/-- `total_cost = sum(c for c in total_costs if c)` (line 116). -/
def total_cost (vals : List ValRow) : ℚ := truthySum (vals.map (·.totalCost))

/-- `total_profit = sum(p for p in profits_dollar if p is not None)` (line 117). -/
def total_profit (vals : List ValRow) : ℚ := presentSum (vals.map (·.profitAbs))

/-- The delta percentage of the third metric (line 122):
`(total_profit/total_cost)*100 if total_cost and total_cost != 0 else 0`. -/
def portfolioDeltaPct (totalProfit totalCost : ℚ) : ℚ :=
  if totalCost ≠ 0 then totalProfit / totalCost * 100 else 0

/-- One spreadsheet / DataFrame cell: a string, a number, or empty (NaN). -/
inductive Cell where
  | str (s : String)
  | num (q : ℚ)
  | blank
deriving DecidableEq, Repr

/-- The remote sheet: a list of rows of cells; the first row, when present,
is the header. -/
abbrev Sheet := List (List Cell)

/-- A DataFrame: named columns and rows of cells. -/
structure Table where
  cols : List String
  rows : List (List Cell)
deriving DecidableEq, Repr

/-- The four persistent holdings columns (line 31). -/
def baseCols : List String :=
  ["Ticker", "Shares", "Buy Price ($)", "Your Target Price ($)"]

/-- The columns coerced with `pd.to_numeric(..., errors="coerce").fillna(0.0)`
(lines 26-28). -/
def numericCols : List String :=
  ["Shares", "Buy Price ($)", "Your Target Price ($)"]

/-- The derived columns written by the refresh action (lines 107-113). -/
def derivedCols : List String :=
  ["Current Price", "Current Value ($)", "Total Cost ($)", "Profit/Loss ($)",
   "Profit/Loss (%)", "Analyst Target", "Analyst Upside (%)"]

/-- `pd.to_numeric(cell, errors="coerce").fillna(0.0)`: a number stays,
anything else becomes 0. -/
def cellToNum : Cell → ℚ
  | Cell.num q => q
  | _ => 0

/-- The header string of a cell. -/
def cellName : Cell → String
  | Cell.str s => s
  | Cell.num q => toString q
  | Cell.blank => ""

/-- Numeric coercion of one record row, column by column (lines 26-28). -/
def coerceRow (cols : List String) (row : List Cell) : List Cell :=
  (cols.zip row).map (fun p => if p.1 ∈ numericCols then Cell.num (cellToNum p.2) else p.2)

/-- `load_holdings` (lines 21-34): read all records (header row as keys),
build a DataFrame and coerce the three numeric columns; an empty record set
yields an empty table with the four base columns. -/
def load_holdings (s : Sheet) : Table :=
  match s with
  | [] => ⟨baseCols, []⟩
  | header :: data =>
    if data = [] then ⟨baseCols, []⟩
    else
      let cols := header.map cellName
      ⟨cols, data.map (coerceRow cols)⟩

/-- The point inside `save_holdings` at which the spreadsheet client raises:
after zero, one or two of the three calls have succeeded. -/
inductive SaveStep where
  | clearStep
  | headerStep
  | rowsStep
deriving DecidableEq, Repr

/-- The header row appended by `save_holdings` (line 39). -/
def headerRow (t : Table) : List Cell := t.cols.map Cell.str

/-- `save_holdings` (lines 36-43): `sheet.clear()`, then append the header
row, then append all data rows; any exception is caught and reported
(`st.error`), never re-raised.  `failAt` models which store call raises
(`none` = success); the result is the sheet contents afterwards together
with whether an error was reported. -/
def save_holdings (t : Table) (failAt : Option SaveStep) (s0 : Sheet) : Sheet × Bool :=
  match failAt with
  | none => (headerRow t :: t.rows, false)
  | some SaveStep.clearStep => (s0, true)
  | some SaveStep.headerStep => ([], true)
  | some SaveStep.rowsStep => ([headerRow t], true)

/-- Look a cell up by column name (`row["..."]`). -/
def getCell (cols : List String) (row : List Cell) (name : String) : Option Cell :=
  (cols.findIdx? (· == name)).bind (fun i => row.get? i)

/-- The numeric content of a cell, `none` for NaN (`pd.notna` false). -/
def cellNumOpt : Cell → Option ℚ
  | Cell.num q => some q
  | _ => none

/-- The string content of a cell, `none` for NaN. -/
def cellStrOpt : Cell → Option String
  | Cell.str s => some s
  | Cell.num q => some (toString q)
  | Cell.blank => none

/-- Read one DataFrame row as a holdings row (lines 76-79). -/
def extractRow (cols : List String) (row : List Cell) : HoldingRow :=
  { ticker := (getCell cols row "Ticker").bind cellStrOpt
    shares := (getCell cols row "Shares").bind cellNumOpt
    buyPrice := (getCell cols row "Buy Price ($)").bind cellNumOpt
    targetPrice := (getCell cols row "Your Target Price ($)").bind cellNumOpt }

/-- A derived value as a cell: `None` becomes an empty (NaN) cell. -/
def optCell : Option ℚ → Cell
  | some q => Cell.num q
  | none => Cell.blank

/-- `edited["name"] = values` (lines 107-113): replace the column when it
exists, else append it on the right. -/
def setCol (t : Table) (name : String) (vs : List Cell) : Table :=
  match t.cols.findIdx? (· == name) with
  | some i => ⟨t.cols, (t.rows.zip vs).map (fun p => p.1.set i p.2)⟩
  | none => ⟨t.cols ++ [name], (t.rows.zip vs).map (fun p => p.1 ++ [p.2])⟩

/-- The refresh action on the whole DataFrame (lines 65-113): run the
per-row valuation and add the seven derived columns in place. -/
def refreshTable (fetch : String → FetchResult) (t : Table) : Table :=
  let vals := t.rows.map (fun r => valuationRow fetch (extractRow t.cols r))
  let t1 := setCol t "Current Price" (vals.map (fun v => optCell v.currentPrice))
  let t2 := setCol t1 "Current Value ($)" (vals.map (fun v => optCell v.currentValue))
  let t3 := setCol t2 "Total Cost ($)" (vals.map (fun v => optCell v.totalCost))
  let t4 := setCol t3 "Profit/Loss ($)" (vals.map (fun v => optCell v.profitAbs))
  let t5 := setCol t4 "Profit/Loss (%)" (vals.map (fun v => optCell v.profitPct))
  let t6 := setCol t5 "Analyst Target" (vals.map (fun v => optCell v.analystTarget))
  setCol t6 "Analyst Upside (%)" (vals.map (fun v => optCell v.analystUpside))

/-- The spec's formula for profitPct: absent whenever totalCost is absent or
zero, otherwise `round(profitAbs/totalCost*100, 2)`, with absence of
`profitAbs` propagating through the formula as in the spec's data model. -/
def profitPctSpec (profitAbs totalCost : Option ℚ) : Option ℚ :=
  match totalCost with
  | none => none
  | some c => if c = 0 then none else profitAbs.map (fun p => round2 (p / c * 100))

/-- The spec's formula for currentValue: `round(currentPrice*shares, 2)` when
currentPrice and shares are present and nonzero, otherwise absent. -/
def currentValueSpec (price : Option ℚ) (shares : ℚ) : Option ℚ :=
  match price with
  | some p => if p ≠ 0 ∧ shares ≠ 0 then some (round2 (p * shares)) else none
  | none => none

/-- The amended formula for analystUpsidePct: absent unless analystTarget is
present and nonzero and currentPrice is present and positive; the spec's
version omits the nonzero condition on analystTarget. -/
def analystUpsideAmended (analyst price : Option ℚ) : Option ℚ :=
  match analyst, price with
  | some a, some p => if a ≠ 0 ∧ 0 < p then some (round2 ((a - p) / p * 100)) else none
  | _, _ => none

/-- Provider fixture: every ticker quotes a current price of 200. -/
def fetchC1 : String → FetchResult := fun _ => FetchResult.ok ⟨some 200, none, none⟩

/-- The spec's AAPL example row. -/
def rowC1 : HoldingRow := ⟨some "AAPL", some 10, some 150, some 180⟩

/-- Provider fixture used with the zero-buy-price row: price 50, no target. -/
def fetchC3 : String → FetchResult := fun _ => FetchResult.ok ⟨some 50, none, none⟩

/-- The spec's XYZ example row: five shares, unset (zero) buy price. -/
def rowC3 : HoldingRow := ⟨some "XYZ", some 5, some 0, none⟩

/-- Provider fixture that raises for BADTICKER and succeeds elsewhere. -/
def fetchC4 : String → FetchResult := fun t =>
  if t = "BADTICKER" then FetchResult.err "boom"
  else FetchResult.ok ⟨some 100, none, none⟩

/-- A row whose ticker's fetch raises. -/
def rowC4 : HoldingRow := ⟨some "BADTICKER", some 2, some 3, none⟩

/-- A row unaffected by the BADTICKER failure. -/
def rowC4b : HoldingRow := ⟨some "GOOD", some 4, some 5, none⟩

/-- Provider fixture that is entirely down. -/
def fetchC5 : String → FetchResult := fun _ => FetchResult.err "down"

/-- A single row with zero buy price; with the provider down every derived
value of its valuation is absent. -/
def rowC5 : HoldingRow := ⟨some "ABC", some 1, some 0, none⟩

/-- The row list for the aggregate-totals witness. -/
def rowsC5 : List HoldingRow := [rowC5]

/-- Provider fixture whose analyst target 0.004 rounds to 0.00. -/
def fetchC6 : String → FetchResult := fun _ => FetchResult.ok ⟨some 100, none, some (1/250)⟩

/-- A plain row for the analyst-upside counterexample. -/
def rowC6 : HoldingRow := ⟨some "ZZZ", some 1, some 1, none⟩

/-- Provider fixture quoting price 50. -/
def fetchC8 : String → FetchResult := fun _ => FetchResult.ok ⟨some 50, none, none⟩

/-- A row with zero buy price: its totalCost is absent, so the portfolio's
total invested sums to 0. -/
def rowC8 : HoldingRow := ⟨some "GIFT", some 5, some 0, none⟩

/-- The row list for the portfolio-percentage counterexample. -/
def rowsC8 : List HoldingRow := [rowC8]

/-- Provider fixture quoting price 100. -/
def fetchC10 : String → FetchResult := fun _ => FetchResult.ok ⟨some 100, none, none⟩

/-- A row with positive shares (0.1) and positive buy price (0.01) whose
cost 0.001 rounds to 0.00 at two decimals. -/
def rowC10 : HoldingRow := ⟨some "PENY", some (1/10), some (1/100), none⟩

/-- The sheet holding one AAPL row under the four base columns. -/
def sheetC2 : Sheet :=
  [[Cell.str "Ticker", Cell.str "Shares", Cell.str "Buy Price ($)",
    Cell.str "Your Target Price ($)"],
   [Cell.str "AAPL", Cell.num 10, Cell.num 150, Cell.num 180]]

/-- Provider fixture quoting price 200. -/
def fetchC2 : String → FetchResult := fun _ => FetchResult.ok ⟨some 200, none, none⟩

/-- The sheet produced by a session that loads, refreshes prices
(successfully) and then saves: the refresh added the derived columns to the
session table in place, so the save persists them. -/
def savedC2 : Sheet :=
  (save_holdings (refreshTable fetchC2 (load_holdings sheetC2)) none sheetC2).1

/-- A base-columns-only table for the round-trip witness. -/
def tableC2 : Table :=
  ⟨baseCols, [[Cell.str "AAPL", Cell.num 10, Cell.num 150, Cell.num 180]]⟩

/-- An empty-rows table for the non-atomic-save witness. -/
def tableC9 : Table := ⟨baseCols, []⟩

/-- A nonempty previous sheet content for the non-atomic-save witness. -/
def sheetC9 : Sheet := [[Cell.str "x"]]

/-! ### Helper lemmas -/

theorem valuationRow_currentPrice (f : String → FetchResult) (r : HoldingRow) :
    (valuationRow f r).currentPrice = (fetchPrices f (normTicker r.ticker)).1 := rfl

theorem valuationRow_currentValue (f : String → FetchResult) (r : HoldingRow) :
    (valuationRow f r).currentValue =
      currentValueOf (fetchPrices f (normTicker r.ticker)).1 (r.shares.getD 0) := rfl

theorem valuationRow_totalCost (f : String → FetchResult) (r : HoldingRow) :
    (valuationRow f r).totalCost = totalCostOf (r.buyPrice.getD 0) (r.shares.getD 0) := rfl

theorem valuationRow_profitAbs (f : String → FetchResult) (r : HoldingRow) :
    (valuationRow f r).profitAbs =
      profitAbsOf (currentValueOf (fetchPrices f (normTicker r.ticker)).1 (r.shares.getD 0))
        (totalCostOf (r.buyPrice.getD 0) (r.shares.getD 0)) := rfl

theorem valuationRow_profitPct (f : String → FetchResult) (r : HoldingRow) :
    (valuationRow f r).profitPct =
      profitPctOf
        (profitAbsOf (currentValueOf (fetchPrices f (normTicker r.ticker)).1 (r.shares.getD 0))
          (totalCostOf (r.buyPrice.getD 0) (r.shares.getD 0)))
        (totalCostOf (r.buyPrice.getD 0) (r.shares.getD 0)) := rfl

theorem valuationRow_analystTarget (f : String → FetchResult) (r : HoldingRow) :
    (valuationRow f r).analystTarget = (fetchPrices f (normTicker r.ticker)).2.1 := rfl

theorem valuationRow_analystUpside (f : String → FetchResult) (r : HoldingRow) :
    (valuationRow f r).analystUpside =
      analystUpsideOf (fetchPrices f (normTicker r.ticker)).2.1
        (fetchPrices f (normTicker r.ticker)).1 := rfl

theorem valuationRow_errMsg (f : String → FetchResult) (r : HoldingRow) :
    (valuationRow f r).errMsg = (fetchPrices f (normTicker r.ticker)).2.2 := rfl

theorem profitAbsOf_none_left (c : Option ℚ) : profitAbsOf none c = none := by
  cases c <;> rfl

theorem profitAbsOf_none_right (v : Option ℚ) : profitAbsOf v none = none := by
  cases v <;> rfl

theorem profitPctOf_none_left (c : Option ℚ) : profitPctOf none c = none := by
  cases c <;> rfl

theorem profitPctOf_eq_spec (p c : Option ℚ) : profitPctOf p c = profitPctSpec p c := by
  cases p with
  | none =>
    cases c with
    | none => rfl
    | some c => by_cases hc : c = 0 <;> simp [profitPctOf, profitPctSpec, hc]
  | some p =>
    cases c with
    | none => rfl
    | some c => by_cases hc : c = 0 <;> simp [profitPctOf, profitPctSpec, hc]

theorem currentValueOf_eq_spec (p : Option ℚ) (s : ℚ) :
    currentValueOf p s = currentValueSpec p s := by
  cases p <;> rfl

theorem analystUpsideOf_eq_amended (a p : Option ℚ) :
    analystUpsideOf a p = analystUpsideAmended a p := by
  cases a with
  | none => cases p <;> rfl
  | some a =>
    cases p with
    | none => rfl
    | some p =>
      have h : (a ≠ 0 ∧ p ≠ 0 ∧ 0 < p) ↔ (a ≠ 0 ∧ 0 < p) := by
        constructor
        · rintro ⟨h1, _, h3⟩
          exact ⟨h1, h3⟩
        · rintro ⟨h1, h3⟩
          exact ⟨h1, ne_of_gt h3, h3⟩
      simp only [analystUpsideOf, analystUpsideAmended]
      exact if_congr h rfl rfl

/-! ### Claim theorems -/

/-- Claim C1: for every holdings row, profitPct is absent whenever totalCost
is absent or zero, and otherwise equals `round(profitAbs/totalCost*100, 2)`
(absence of profitAbs propagating); for shares=10, buyPrice=150,
currentPrice=200 it is 33.33. -/
theorem profitPct_guard_and_formula :
    (∀ (fetch : String → FetchResult) (r : HoldingRow),
      (valuationRow fetch r).profitPct =
        profitPctSpec (valuationRow fetch r).profitAbs (valuationRow fetch r).totalCost) ∧
    (valuationRow fetchC1 rowC1).profitPct = some (3333/100) := by
  constructor
  · intro fetch r
    rw [valuationRow_profitPct, valuationRow_profitAbs, valuationRow_totalCost]
    exact profitPctOf_eq_spec _ _
  · have hs : ("AAPL" = "") = False := by simp
    have hA : normTicker (some "AAPL") = "AAPL" := by decide
    norm_num [valuationRow, fetchC1, rowC1, hA, hs, fetchPrices, pyOr, roundIfTruthy,
      currentValueOf, totalCostOf, profitAbsOf, profitPctOf, analystUpsideOf, round2, rhe]

/-- Claim C7: for every row, currentValue equals
`round(currentPrice*shares, 2)` when currentPrice and shares are present and
nonzero, and is absent otherwise. -/
theorem currentValue_formula :
    ∀ (fetch : String → FetchResult) (r : HoldingRow),
      (valuationRow fetch r).currentValue =
        currentValueSpec (valuationRow fetch r).currentPrice (r.shares.getD 0) := by
  intro fetch r
  rw [valuationRow_currentValue, valuationRow_currentPrice]
  exact currentValueOf_eq_spec _ _

/-- Claim C6, counterexample: with a fetched analyst target of 0.004
(rounded to 0.00) and a current price of 100, analystTarget is present and
currentPrice is positive, yet analystUpside is absent instead of the claimed
`round((0-100)/100*100, 2)`. -/
theorem analystUpside_claim_fails :
    (valuationRow fetchC6 rowC6).analystTarget = some 0 ∧
    (valuationRow fetchC6 rowC6).currentPrice = some 100 ∧
    (0:ℚ) < 100 ∧
    (valuationRow fetchC6 rowC6).analystUpside = none ∧
    (valuationRow fetchC6 rowC6).analystUpside ≠
      some (round2 ((0 - 100) / 100 * 100)) := by
  have hs : ("ZZZ" = "") = False := by simp
  have hA : normTicker (some "ZZZ") = "ZZZ" := by decide
  norm_num [valuationRow, fetchC6, rowC6, hA, hs, fetchPrices, pyOr, roundIfTruthy,
    currentValueOf, totalCostOf, profitAbsOf, profitPctOf, analystUpsideOf, round2, rhe]
  simp

/-- Claim C6, amended: analystUpside is absent unless analystTarget is
present and nonzero and currentPrice is present and positive, and then it
equals `round((analystTarget-currentPrice)/currentPrice*100, 2)`. -/
theorem analystUpside_formula :
    ∀ (fetch : String → FetchResult) (r : HoldingRow),
      (valuationRow fetch r).analystUpside =
        analystUpsideAmended (valuationRow fetch r).analystTarget
          (valuationRow fetch r).currentPrice := by
  intro fetch r
  rw [valuationRow_analystUpside, valuationRow_analystTarget, valuationRow_currentPrice]
  exact analystUpsideOf_eq_amended _ _

/-- Claim C3: a row with zero (or absent) shares or buy price has absent
totalCost (not zero), and hence absent profitAbs and profitPct, whatever the
fetched price. -/
theorem zero_inputs_no_cost :
    ∀ (fetch : String → FetchResult) (r : HoldingRow),
      r.shares.getD 0 = 0 ∨ r.buyPrice.getD 0 = 0 →
      (valuationRow fetch r).totalCost = none ∧
      (valuationRow fetch r).profitAbs = none ∧
      (valuationRow fetch r).profitPct = none := by
  intro fetch r h
  have hc : totalCostOf (r.buyPrice.getD 0) (r.shares.getD 0) = none := by
    rcases h with h | h <;> simp [totalCostOf, h]
  refine ⟨?_, ?_, ?_⟩
  · rw [valuationRow_totalCost, hc]
  · rw [valuationRow_profitAbs, hc, profitAbsOf_none_right]
  · rw [valuationRow_profitPct, hc, profitAbsOf_none_right]
    rfl

/-- Claim C3, witness: the XYZ row (shares 5, buy price 0) with a live
price of 50 still has absent totalCost, profitAbs and profitPct. -/
theorem zero_inputs_no_cost_witness :
    (valuationRow fetchC3 rowC3).currentPrice = some 50 ∧
    ((valuationRow fetchC3 rowC3).totalCost = none ∧
     (valuationRow fetchC3 rowC3).profitAbs = none ∧
     (valuationRow fetchC3 rowC3).profitPct = none) := by
  constructor
  · have hs : ("XYZ" = "") = False := by simp
    have hA : normTicker (some "XYZ") = "XYZ" := by decide
    norm_num [valuationRow, fetchC3, rowC3, hA, hs, fetchPrices, pyOr, roundIfTruthy,
      round2, rhe]
  · exact zero_inputs_no_cost fetchC3 rowC3 (Or.inr (by simp [rowC3]))

theorem fetchPrices_congr (f f' : String → FetchResult) (t : String)
    (h : f t = f' t) : fetchPrices f t = fetchPrices f' t := by
  unfold fetchPrices
  rw [h]

theorem valuationRow_congr (f f' : String → FetchResult) (r : HoldingRow)
    (h : f (normTicker r.ticker) = f' (normTicker r.ticker)) :
    valuationRow f r = valuationRow f' r := by
  simp only [valuationRow]
  rw [fetchPrices_congr f f' _ h]

/-- Claim C4: when the fetch for a row's (nonempty) ticker raises, that
row's currentPrice, currentValue, profitAbs, profitPct, analystTarget and
analystUpside are all absent and an error naming the ticker is reported; a
row's valuation depends on the provider only through its own ticker, and
the refresh still processes every row. -/
theorem fetch_error_isolation :
    ∀ (fetch fetch' : String → FetchResult) (r r' : HoldingRow) (e : String),
      normTicker r.ticker ≠ "" →
      fetch (normTicker r.ticker) = FetchResult.err e →
      ((valuationRow fetch r).currentPrice = none ∧
       (valuationRow fetch r).currentValue = none ∧
       (valuationRow fetch r).profitAbs = none ∧
       (valuationRow fetch r).profitPct = none ∧
       (valuationRow fetch r).analystTarget = none ∧
       (valuationRow fetch r).analystUpside = none ∧
       (valuationRow fetch r).errMsg =
         some ("Error fetching " ++ normTicker r.ticker ++ ": " ++ e)) ∧
      (fetch' (normTicker r'.ticker) = fetch (normTicker r'.ticker) →
        valuationRow fetch' r' = valuationRow fetch r') ∧
      (∀ rows : List HoldingRow, (refreshRows fetch rows).length = rows.length) := by
  intro fetch fetch' r r' e ht he
  have hf : fetchPrices fetch (normTicker r.ticker) =
      (none, none, some ("Error fetching " ++ normTicker r.ticker ++ ": " ++ e)) := by
    unfold fetchPrices
    rw [if_neg ht, he]
  have hcv : currentValueOf
      ((none : Option ℚ), (none : Option ℚ),
        some ("Error fetching " ++ normTicker r.ticker ++ ": " ++ e)).1
      (r.shares.getD 0) = none := rfl
  refine ⟨⟨?_, ?_, ?_, ?_, ?_, ?_, ?_⟩, ?_, ?_⟩
  · rw [valuationRow_currentPrice, hf]
  · rw [valuationRow_currentValue, hf]
    exact hcv
  · rw [valuationRow_profitAbs, hf]
    exact profitAbsOf_none_left _
  · rw [valuationRow_profitPct, hf, hcv, profitAbsOf_none_left, profitPctOf_none_left]
  · rw [valuationRow_analystTarget, hf]
  · rw [valuationRow_analystUpside, hf]
    rfl
  · rw [valuationRow_errMsg, hf]
  · intro h
    exact valuationRow_congr fetch' fetch r' h
  · intro rows
    simp [refreshRows]

/-- Claim C4, witness: fetching BADTICKER raises; its row's derived fields
are all absent and the reported error names the ticker. -/
theorem fetch_error_isolation_witness :
    (valuationRow fetchC4 rowC4).currentPrice = none ∧
    (valuationRow fetchC4 rowC4).currentValue = none ∧
    (valuationRow fetchC4 rowC4).profitAbs = none ∧
    (valuationRow fetchC4 rowC4).profitPct = none ∧
    (valuationRow fetchC4 rowC4).analystTarget = none ∧
    (valuationRow fetchC4 rowC4).analystUpside = none ∧
    (valuationRow fetchC4 rowC4).errMsg =
      some ("Error fetching " ++ normTicker rowC4.ticker ++ ": " ++ "boom") :=
  (fetch_error_isolation fetchC4 fetchC4 rowC4 rowC4b "boom"
    (by decide) (by decide)).1

theorem truthySum_eq_presentSum (l : List (Option ℚ)) : truthySum l = presentSum l := by
  induction l with
  | nil => rfl
  | cons o t ih =>
    cases o with
    | none => simpa [truthySum, presentSum, List.filterMap_cons] using ih
    | some q =>
      by_cases hq : q = 0
      · subst hq
        simpa [truthySum, presentSum, List.filterMap_cons] using ih
      · simp only [truthySum, presentSum, List.filterMap_cons, hq, if_neg,
          List.sum_cons] at ih ⊢
        simp [hq, ih]

theorem presentSum_all_none (l : List (Option ℚ)) (h : ∀ o ∈ l, o = none) :
    presentSum l = 0 := by
  induction l with
  | nil => rfl
  | cons o t ih =>
    have ho : o = none := h o (by simp)
    subst ho
    simp only [presentSum, List.filterMap_cons] at ih ⊢
    exact ih (fun o ho' => h o (by simp [ho']))

/-- Claim C5: the portfolio totals equal the sums of the present per-row
currentValue, totalCost and profitAbs values (absent ones ignored), and
when every per-row value is absent each total is 0. -/
theorem totals_ignore_absent :
    ∀ (fetch : String → FetchResult) (rows : List HoldingRow),
      total_value (refreshRows fetch rows) =
        presentSum ((refreshRows fetch rows).map (·.currentValue)) ∧
      total_cost (refreshRows fetch rows) =
        presentSum ((refreshRows fetch rows).map (·.totalCost)) ∧
      total_profit (refreshRows fetch rows) =
        presentSum ((refreshRows fetch rows).map (·.profitAbs)) ∧
      ((∀ v ∈ refreshRows fetch rows,
          v.currentValue = none ∧ v.totalCost = none ∧ v.profitAbs = none) →
        total_value (refreshRows fetch rows) = 0 ∧
        total_cost (refreshRows fetch rows) = 0 ∧
        total_profit (refreshRows fetch rows) = 0) := by
  intro fetch rows
  refine ⟨truthySum_eq_presentSum _, truthySum_eq_presentSum _, rfl, ?_⟩
  intro h
  refine ⟨?_, ?_, ?_⟩
  · rw [total_value, truthySum_eq_presentSum]
    exact presentSum_all_none _ (by
      intro o ho
      obtain ⟨v, hv, rfl⟩ := List.mem_map.1 ho
      exact (h v hv).1)
  · rw [total_cost, truthySum_eq_presentSum]
    exact presentSum_all_none _ (by
      intro o ho
      obtain ⟨v, hv, rfl⟩ := List.mem_map.1 ho
      exact (h v hv).2.1)
  · exact presentSum_all_none _ (by
      intro o ho
      obtain ⟨v, hv, rfl⟩ := List.mem_map.1 ho
      exact (h v hv).2.2)

/-- Claim C5, witness: with the provider down and a zero buy price, every
per-row value is absent and all three totals are 0, not an error. -/
theorem totals_ignore_absent_witness :
    total_value (refreshRows fetchC5 rowsC5) = 0 ∧
    total_cost (refreshRows fetchC5 rowsC5) = 0 ∧
    total_profit (refreshRows fetchC5 rowsC5) = 0 := by
  have hval : valuationRow fetchC5 rowC5 =
      { currentPrice := none, currentValue := none, totalCost := none,
        profitAbs := none, profitPct := none, analystTarget := none,
        analystUpside := none, errMsg := some "Error fetching ABC: down" } := by
    have hs : ("ABC" = "") = False := by simp
    have hA : normTicker (some "ABC") = "ABC" := by decide
    norm_num [valuationRow, fetchC5, rowC5, hA, hs, fetchPrices, pyOr, roundIfTruthy,
      currentValueOf, totalCostOf, profitAbsOf, profitPctOf, analystUpsideOf]
    decide
  exact (totals_ignore_absent fetchC5 rowsC5).2.2.2 (by
    intro v hv
    simp only [refreshRows, rowsC5, List.map_cons, List.map_nil,
      List.mem_singleton] at hv
    subst hv
    rw [hval]
    exact ⟨rfl, rfl, rfl⟩)

/-- Claim C10: there is a row with positive shares and positive buy price
whose totalCost is present and exactly 0 (the product rounds to 0.00); its
profitAbs is present and equals its currentValue while profitPct is still
absent. -/
theorem rounded_zero_cost_exists :
    ∃ (fetch : String → FetchResult) (r : HoldingRow) (s b : ℚ),
      r.shares = some s ∧ r.buyPrice = some b ∧ 0 < s ∧ 0 < b ∧
      (valuationRow fetch r).totalCost = some 0 ∧
      (valuationRow fetch r).currentValue = some 10 ∧
      (valuationRow fetch r).profitAbs = (valuationRow fetch r).currentValue ∧
      (valuationRow fetch r).profitPct = none := by
  have hval : valuationRow fetchC10 rowC10 =
      { currentPrice := some 100, currentValue := some 10, totalCost := some 0,
        profitAbs := some 10, profitPct := none, analystTarget := none,
        analystUpside := none, errMsg := none } := by
    have hs : ("PENY" = "") = False := by simp
    have hA : normTicker (some "PENY") = "PENY" := by decide
    norm_num [valuationRow, fetchC10, rowC10, hA, hs, fetchPrices, pyOr, roundIfTruthy,
      currentValueOf, totalCostOf, profitAbsOf, profitPctOf, analystUpsideOf, round2, rhe]
  refine ⟨fetchC10, rowC10, 1/10, 1/100, rfl, rfl, by norm_num, by norm_num,
    ?_, ?_, ?_, ?_⟩ <;> rw [hval]

/-- Claim C8, counterexample: with one zero-buy-price row, total invested
and total profit are both 0; the per-row zero-cost guard yields an absent
profitPct, but the portfolio metric's delta is the present value 0
(rendered +0.00%), not an absent outcome. -/
theorem portfolio_pct_claim_fails :
    total_cost (refreshRows fetchC8 rowsC8) = 0 ∧
    total_profit (refreshRows fetchC8 rowsC8) = 0 ∧
    portfolioDeltaPct (total_profit (refreshRows fetchC8 rowsC8))
      (total_cost (refreshRows fetchC8 rowsC8)) = 0 ∧
    profitPctOf (some (total_profit (refreshRows fetchC8 rowsC8)))
      (some (total_cost (refreshRows fetchC8 rowsC8))) = none := by
  have hval : valuationRow fetchC8 rowC8 =
      { currentPrice := some 50, currentValue := some 250, totalCost := none,
        profitAbs := none, profitPct := none, analystTarget := none,
        analystUpside := none, errMsg := none } := by
    have hs : ("GIFT" = "") = False := by simp
    have hA : normTicker (some "GIFT") = "GIFT" := by decide
    norm_num [valuationRow, fetchC8, rowC8, hA, hs, fetchPrices, pyOr, roundIfTruthy,
      currentValueOf, totalCostOf, profitAbsOf, profitPctOf, analystUpsideOf, round2, rhe]
  have h1 : total_cost (refreshRows fetchC8 rowsC8) = 0 := by
    simp [total_cost, truthySum, refreshRows, rowsC8, hval]
  have h2 : total_profit (refreshRows fetchC8 rowsC8) = 0 := by
    simp [total_profit, presentSum, refreshRows, rowsC8, hval]
  refine ⟨h1, h2, ?_, ?_⟩
  · rw [h1, h2]
    simp [portfolioDeltaPct]
  · rw [h1, h2]
    simp [profitPctOf]

/-- Claim C8, amended: the portfolio percentage uses the same zero-guard
condition as the per-row profitPct (the division is skipped when total
invested is zero), but on a failed guard it yields the value 0 rather than
an absent outcome. -/
theorem portfolio_pct_guard :
    ∀ totalProfit totalInvested : ℚ,
      (totalInvested = 0 → portfolioDeltaPct totalProfit totalInvested = 0) ∧
      (totalInvested ≠ 0 →
        portfolioDeltaPct totalProfit totalInvested = totalProfit / totalInvested * 100) := by
  intro tp tc
  constructor <;> intro h <;> simp [portfolioDeltaPct, h]

/-- Claim C8, witness: the guard at total invested 0 yields 0, and with
total invested 2 the division is performed. -/
theorem portfolio_pct_guard_witness :
    portfolioDeltaPct 5 0 = 0 ∧ portfolioDeltaPct 5 2 = 5 / 2 * 100 :=
  ⟨(portfolio_pct_guard 5 0).1 rfl, (portfolio_pct_guard 5 2).2 (by norm_num)⟩

/-- Claim C9: `save_holdings` clears the sheet before appending, so a
failure on the header append leaves the sheet empty and a failure on the
data append leaves only the header — not the previous contents; every
failure is caught and reported (the function returns normally with an error
flag) and a successful save writes header plus data rows. -/
theorem save_not_atomic :
    ∀ (t : Table) (s0 : Sheet),
      save_holdings t (some SaveStep.headerStep) s0 = ([], true) ∧
      save_holdings t (some SaveStep.rowsStep) s0 = ([headerRow t], true) ∧
      (s0 ≠ [] → (save_holdings t (some SaveStep.headerStep) s0).1 ≠ s0) ∧
      save_holdings t (some SaveStep.clearStep) s0 = (s0, true) ∧
      save_holdings t none s0 = (headerRow t :: t.rows, false) := by
  intro t s0
  refine ⟨rfl, rfl, ?_, rfl, rfl⟩
  intro h0 hs
  exact h0 hs.symm

/-- Claim C9, witness: with a nonempty previous sheet, a failure right
after the clear leaves contents different from the previous ones. -/
theorem save_not_atomic_witness :
    (save_holdings tableC9 (some SaveStep.headerStep) sheetC9).1 ≠ sheetC9 :=
  (save_not_atomic tableC9 sheetC9).2.2.1 (by simp [sheetC9])

/-- Claim C2, counterexample: a session that loads the AAPL sheet,
refreshes prices (successfully) and then saves persists the derived
columns, and a fresh load returns a table that contains them. -/
theorem derived_cols_persist :
    "Current Price" ∈ (load_holdings savedC2).cols ∧
    (load_holdings savedC2).cols ≠ baseCols := by
  decide

theorem coerceRow_base (s : String) (a b c : ℚ) :
    coerceRow baseCols [Cell.str s, Cell.num a, Cell.num b, Cell.num c] =
      [Cell.str s, Cell.num a, Cell.num b, Cell.num c] := by
  simp [coerceRow, baseCols, numericCols, cellToNum]

theorem coerceRows_base :
    ∀ (rows : List (List Cell)),
      (∀ row ∈ rows, ∃ s a b c,
        row = [Cell.str s, Cell.num a, Cell.num b, Cell.num c]) →
      rows.map (coerceRow baseCols) = rows := by
  intro rows
  induction rows with
  | nil => intro _; rfl
  | cons r rs ih =>
    intro h
    obtain ⟨s, a, b, c, hr⟩ := h r (by simp)
    subst hr
    simp only [List.map_cons]
    rw [coerceRow_base, ih (fun row hrow => h row (List.mem_cons_of_mem _ hrow))]

/-- Claim C2, amended: saving a table that holds only the four base columns
(no refresh has happened in the session) and loading it back reproduces the
table exactly — same Ticker, Shares, Buy Price and Target Price values and
no derived columns. -/
theorem save_load_roundtrip_base :
    ∀ (t : Table) (s0 : Sheet),
      t.cols = baseCols →
      (∀ row ∈ t.rows, ∃ s a b c,
        row = [Cell.str s, Cell.num a, Cell.num b, Cell.num c]) →
      load_holdings (save_holdings t none s0).1 = t := by
  intro t s0 hcols hrows
  have hsave : (save_holdings t none s0).1 = headerRow t :: t.rows := rfl
  rw [hsave]
  cases t with
  | mk cols rows =>
    dsimp only at hcols hrows ⊢
    subst hcols
    have hh : headerRow ⟨baseCols, rows⟩ = baseCols.map Cell.str := rfl
    rw [hh]
    cases rows with
    | nil => rfl
    | cons r rs =>
      simp only [load_holdings]
      rw [if_neg (by simp : ¬(r :: rs = ([] : List (List Cell))))]
      have hbc : (baseCols.map Cell.str).map cellName = baseCols := by decide
      rw [hbc]
      congr 1
      exact coerceRows_base _ hrows

/-- Claim C2, witness: the one-row AAPL base table survives a save/load
round trip unchanged. -/
theorem save_load_roundtrip_base_witness :
    load_holdings (save_holdings tableC2 none []).1 = tableC2 :=
  save_load_roundtrip_base tableC2 [] rfl (by
    intro row hrow
    simp only [tableC2, List.mem_singleton] at hrow
    subst hrow
    exact ⟨"AAPL", 10, 150, 180, rfl⟩)

end Dashboard
